import Mathlib

/-!
Shallow embedding of the adaptive personalization core of the quizorbital
backend and proofs about its documented behaviour.

The embedded code lives in:
* `src/backend/adaptive_learning.py`  (class `AdaptiveLearning`)
* `src/backend/proficiency_model.py`  (class `ProficiencyPredictor`)
* `src/backend/cold_start.py`         (class `ColdStartSolver`)
* `src/backend/recommendation_system.py` (class `RecommendationSystem`)

Python floats are modelled as rationals (`ℚ`), Python ints as `ℤ`/`ℕ`,
dictionaries either as association lists (where iteration order matters) or
as functions into `Option`, and fallible code as `Except String`.
-/

namespace Quizorbital

/-! ### AdaptiveLearning (src/backend/adaptive_learning.py) -/

/-- Embedding of the `confidence_threshold` parameter set in
`AdaptiveLearning.__init__` (adaptive_learning.py line 32): `0.7`. -/
def confidenceThreshold : ℚ := 7/10

/-- Embedding of `AdaptiveLearning._calculate_performance_score`
(adaptive_learning.py lines 86-112): the time factor is
`max(0, 1 - avg_response_time / 60)` and the weighted score is
`0.6 * correct_ratio + 0.2 * time_factor + 0.2 * confidence_score`. -/
def calculatePerformanceScore (correctRatio avgResponseTime confidenceScore : ℚ) : ℚ :=
  let timeFactor := max 0 (1 - avgResponseTime / 60)
  6/10 * correctRatio + 2/10 * timeFactor + 2/10 * confidenceScore

/-- Embedding of the arithmetic tail of `AdaptiveLearning._estimate_proficiency`
(adaptive_learning.py lines 162-174): the heuristic proficiency is
`performance_score * (current_difficulty / 3.0)` and the blended value is
`0.7 * predicted_proficiency + 0.3 * heuristic_proficiency`.  The model
prediction (a separate call into `ProficiencyPredictor`) enters here as the
`predictedProficiency` argument. -/
def blendProficiency (predictedProficiency performanceScore : ℚ)
    (currentDifficulty : ℤ) : ℚ :=
  let heuristicProficiency := performanceScore * ((currentDifficulty : ℚ) / 3)
  7/10 * predictedProficiency + 3/10 * heuristicProficiency

/-- Embedding of `AdaptiveLearning._determine_next_difficulty`
(adaptive_learning.py lines 176-199): move up when
`proficiency >= current_difficulty * 0.7` and `current_difficulty < 3`,
move down when `proficiency < (current_difficulty - 1) * 0.7` and
`current_difficulty > 1`, otherwise stay. -/
def determineNextDifficulty (proficiency : ℚ) (currentDifficulty : ℤ) : ℤ :=
  let moveUpThreshold := (currentDifficulty : ℚ) * confidenceThreshold
  let moveDownThreshold := ((currentDifficulty : ℚ) - 1) * confidenceThreshold
  if moveUpThreshold ≤ proficiency ∧ currentDifficulty < 3 then
    currentDifficulty + 1
  else if proficiency < moveDownThreshold ∧ 1 < currentDifficulty then
    currentDifficulty - 1
  else
    currentDifficulty

/-- Embedding of `AdaptiveLearning._calculate_confidence`
(adaptive_learning.py lines 286-308): incorrect answers get confidence `0.2`;
correct answers get `0.5 + 0.5 * min(1, expected_time / max(1, response_time))`
with `expected_time = 10 * difficulty`. -/
def calculateConfidence (isCorrect : Bool) (responseTime : ℚ) (difficulty : ℤ) : ℚ :=
  if !isCorrect then
    2/10
  else
    let expectedTime : ℚ := 10 * (difficulty : ℚ)
    let timeFactor := min 1 (expectedTime / max 1 responseTime)
    1/2 + 1/2 * timeFactor

/-- C1: for every blended proficiency value in `[0, 1]`, with current
difficulty ordinal 2 (intermediate), `_determine_next_difficulty` never
returns ordinal 3 (advanced): the move-up threshold `2 * 0.7 = 1.4` exceeds
any proficiency in `[0, 1]`, so the intermediate-to-advanced transition is
unreachable via this rule. -/
theorem determine_next_difficulty_no_advance_from_intermediate
    (p : ℚ) (h0 : 0 ≤ p) (h1 : p ≤ 1) :
    determineNextDifficulty p 2 ≠ 3 := by
  simp only [determineNextDifficulty, confidenceThreshold]
  split
  next hc =>
    exfalso
    have h2 : ((2:ℤ) : ℚ) * (7/10) ≤ p := hc.1
    norm_num at h2
    linarith
  next =>
    split
    next => norm_num
    next => norm_num

/-- C1 witness: a concrete blended proficiency in `[0, 1]` for which the
intermediate level is not promoted to advanced. -/
theorem determine_next_difficulty_no_advance_from_intermediate_witness :
    determineNextDifficulty (9/10) 2 ≠ 3 :=
  determine_next_difficulty_no_advance_from_intermediate (9/10)
    (by norm_num) (by norm_num)

/-- C4 counterexample: at a tie with the move-up threshold the adapter moves
up instead of staying.  With model proficiency `1`, performance score `0` and
current ordinal `1`, the blended proficiency equals the move-up threshold
`1 * 0.7` exactly, and `_determine_next_difficulty` returns `2`, not `1` —
refuting the clause that ties favor staying. -/
theorem next_difficulty_tie_moves_up :
    blendProficiency 1 0 1 = (1 : ℚ) * confidenceThreshold ∧
    determineNextDifficulty (blendProficiency 1 0 1) 1 = 2 := by
  constructor
  · norm_num [blendProficiency, confidenceThreshold]
  · norm_num [blendProficiency, determineNextDifficulty, confidenceThreshold]

/-- C4 (amended): for model proficiency `m` in `[0,1]`, performance score `p`
in `[0,1]` and current ordinal `c` in `{1,2,3}`, the blended proficiency is
`0.7*m + 0.3*(p*(c/3))`, and the next ordinal is `c+1` if the blend is `≥
c*0.7` and `c < 3`, `c-1` if the blend is `< (c-1)*0.7` and `c > 1`, and `c`
otherwise; the result differs from `c` by at most one step.  A tie at the
move-up threshold moves up (the comparison is `>=`), while a tie at the
move-down threshold stays (the comparison is strict `<`). -/
theorem next_difficulty_threshold_rule (m p : ℚ) (c : ℤ)
    (hm0 : 0 ≤ m) (hm1 : m ≤ 1) (hp0 : 0 ≤ p) (hp1 : p ≤ 1)
    (hc : c = 1 ∨ c = 2 ∨ c = 3) :
    (determineNextDifficulty (blendProficiency m p c) c =
      if (c : ℚ) * (7/10) ≤ blendProficiency m p c ∧ c < 3 then c + 1
      else if blendProficiency m p c < ((c : ℚ) - 1) * (7/10) ∧ 1 < c then c - 1
      else c) ∧
    (determineNextDifficulty (blendProficiency m p c) c - c).natAbs ≤ 1 := by
  constructor
  · simp only [determineNextDifficulty, confidenceThreshold]
  · simp only [determineNextDifficulty, confidenceThreshold]
    split
    next => omega
    next =>
      split
      next => omega
      next => omega

/-- C4 witness: the amended rule instantiated at a concrete input. -/
theorem next_difficulty_threshold_rule_witness :
    (determineNextDifficulty (blendProficiency (1/2) (1/2) 2) 2 =
      if ((2:ℤ) : ℚ) * (7/10) ≤ blendProficiency (1/2) (1/2) 2 ∧ (2:ℤ) < 3 then 2 + 1
      else if blendProficiency (1/2) (1/2) 2 < (((2:ℤ) : ℚ) - 1) * (7/10) ∧ (1:ℤ) < 2 then 2 - 1
      else 2) ∧
    (determineNextDifficulty (blendProficiency (1/2) (1/2) 2) 2 - 2).natAbs ≤ 1 :=
  next_difficulty_threshold_rule (1/2) (1/2) 2
    (by norm_num) (by norm_num) (by norm_num) (by norm_num) (Or.inr (Or.inl rfl))

/-- C5: for `correct_ratio`, `confidence_score` in `[0,1]` and
`avg_response_time ≥ 0`, `_calculate_performance_score` returns exactly
`0.6*correct_ratio + 0.2*max(0, 1 - avg_response_time/60) +
0.2*confidence_score`, a value in `[0,1]`; for `(0.9, 15, 0.8)` it returns
`0.85`. -/
theorem calculate_performance_score_spec (cr art cs : ℚ)
    (hcr0 : 0 ≤ cr) (hcr1 : cr ≤ 1) (hart : 0 ≤ art)
    (hcs0 : 0 ≤ cs) (hcs1 : cs ≤ 1) :
    calculatePerformanceScore cr art cs
      = 6/10 * cr + 2/10 * max 0 (1 - art / 60) + 2/10 * cs ∧
    0 ≤ calculatePerformanceScore cr art cs ∧
    calculatePerformanceScore cr art cs ≤ 1 ∧
    calculatePerformanceScore (9/10) 15 (8/10) = 85/100 := by
  have htf0 : (0:ℚ) ≤ max 0 (1 - art / 60) := le_max_left 0 _
  have htf1 : max (0:ℚ) (1 - art / 60) ≤ 1 := by
    apply max_le
    · norm_num
    · have : (0:ℚ) ≤ art / 60 := by positivity
      linarith
  refine ⟨rfl, ?_, ?_, ?_⟩
  · simp only [calculatePerformanceScore]
    positivity
  · simp only [calculatePerformanceScore]
    linarith
  · simp only [calculatePerformanceScore]
    rw [show max (0:ℚ) (1 - 15 / 60) = 3/4 by rw [max_eq_right] <;> norm_num]
    norm_num

/-- C5 witness: the performance-score specification at a concrete input. -/
theorem calculate_performance_score_spec_witness :
    calculatePerformanceScore (9/10) 15 (8/10) = 85/100 :=
  (calculate_performance_score_spec (9/10) 15 (8/10)
    (by norm_num) (by norm_num) (by norm_num) (by norm_num) (by norm_num)).2.2.2

/-- C9: for `response_time > 0` and difficulty ordinal in `{1,2,3}`,
`_calculate_confidence` returns `0.2` for an incorrect answer, and
`0.5 + 0.5 * min(1, 10*difficulty / response_time)` for a correct answer,
which always lies in `(0.5, 1]`. -/
theorem calculate_confidence_spec (rt : ℚ) (d : ℤ)
    (hrt : 0 < rt) (hd : d = 1 ∨ d = 2 ∨ d = 3) :
    calculateConfidence false rt d = 2/10 ∧
    calculateConfidence true rt d = 1/2 + 1/2 * min 1 (10 * (d : ℚ) / rt) ∧
    1/2 < calculateConfidence true rt d ∧
    calculateConfidence true rt d ≤ 1 := by
  have hd1 : (1:ℚ) ≤ (d : ℚ) := by
    rcases hd with h | h | h <;> subst h <;> norm_num
  have hkey : min (1:ℚ) (10 * (d : ℚ) / max 1 rt) = min 1 (10 * (d : ℚ) / rt) := by
    rcases le_or_lt 1 rt with hle | hlt
    · rw [max_eq_right hle]
    · rw [max_eq_left hlt.le]
      rw [min_eq_left, min_eq_left]
      · rw [le_div_iff₀ hrt]
        nlinarith
      · nlinarith
  have hpos : (0:ℚ) < min 1 (10 * (d : ℚ) / max 1 rt) := by
    apply lt_min
    · norm_num
    · apply div_pos
      · linarith
      · exact lt_max_of_lt_left one_pos
  have hle1 : min (1:ℚ) (10 * (d : ℚ) / max 1 rt) ≤ 1 := min_le_left _ _
  have hunfold : calculateConfidence true rt d
      = 1/2 + 1/2 * min 1 (10 * (d : ℚ) / max 1 rt) := rfl
  refine ⟨rfl, ?_, ?_, ?_⟩
  · rw [hunfold, hkey]
  · rw [hunfold]
    linarith
  · rw [hunfold]
    linarith

/-- C9 witness: the confidence specification at a concrete input. -/
theorem calculate_confidence_spec_witness :
    calculateConfidence false 5 2 = 2/10 ∧
    calculateConfidence true 5 2 = 1/2 + 1/2 * min 1 (10 * ((2:ℤ) : ℚ) / 5) ∧
    1/2 < calculateConfidence true 5 2 ∧
    calculateConfidence true 5 2 ≤ 1 :=
  calculate_confidence_spec 5 2 (by norm_num) (Or.inr (Or.inl rfl))

/-! ### ColdStartSolver (src/backend/cold_start.py) -/

/-- Embedding of `ColdStartSolver.knowledge_domains` (cold_start.py lines
32-38), as an association list in the dictionary's insertion order. -/
def knowledgeDomains : List (String × List String) :=
  [("mathematics", ["algebra", "calculus", "statistics", "geometry"]),
   ("science", ["physics", "chemistry", "biology", "astronomy"]),
   ("humanities", ["history", "literature", "philosophy", "arts"]),
   ("languages", ["english", "spanish", "french", "german"]),
   ("technology", ["programming", "data_science", "web_development", "cybersecurity"])]

/-- Boolean test that the first character list starts the second (helper for
the embedding of the Python substring operator `in`). -/
def strStartsList : List Char → List Char → Bool
  | [], _ => true
  | _ :: _, [] => false
  | a :: as, b :: bs => a = b && strStartsList as bs

/-- Boolean test that a character list occurs contiguously in another. -/
def strOccursList (needle : List Char) : List Char → Bool
  | [] => strStartsList needle []
  | hay@(_ :: t) => strStartsList needle hay || strOccursList needle t

/-- Embedding of the Python substring test `needle in hay` on strings. -/
def strOccurs (needle hay : String) : Bool :=
  strOccursList needle.toList hay.toList

/-- Embedding of the Python `str.lower()` call, written by structural
recursion over the character list so that it evaluates inside the kernel
(the library `String.toLower` is defined by well-founded recursion). -/
def strLower (s : String) : String :=
  String.mk (s.data.map Char.toLower)

/-- Embedding of `ColdStartSolver._map_topic_to_domain` (cold_start.py lines
320-333): lowercase the topic, look first for an exact match with a domain
name or one of its subtopics, then for a substring match of any subtopic or
the domain name inside the topic, and fall back to "general". -/
def mapTopicToDomain (topic : String) : String :=
  let t := strLower topic
  match knowledgeDomains.find? (fun p => t = p.1 || p.2.contains t) with
  | some p => p.1
  | none =>
    match knowledgeDomains.find? (fun p => (p.2 ++ [p.1]).any (fun s => strOccurs s t)) with
    | some p => p.1
    | none => "general"

/-- Embedding of `ColdStartSolver._increase_difficulty` (cold_start.py lines
457-463). -/
def increaseDifficulty (difficulty : String) : String :=
  if difficulty = "beginner" then "intermediate"
  else if difficulty = "intermediate" then "advanced"
  else "advanced"

/-- Embedding of `ColdStartSolver._decrease_difficulty` (cold_start.py lines
465-471). -/
def decreaseDifficulty (difficulty : String) : String :=
  if difficulty = "advanced" then "intermediate"
  else if difficulty = "intermediate" then "beginner"
  else "beginner"

/-- Embedding of `ColdStartSolver._difficulty_to_number` (cold_start.py lines
473-476): dictionary lookup with default `2`. -/
def difficultyToNumber (difficulty : String) : ℤ :=
  if difficulty = "beginner" then 1
  else if difficulty = "intermediate" then 2
  else if difficulty = "advanced" then 3
  else 2

/-- Embedding of one entry of a profile's `quiz_history` list (the dictionary
appended in `update_profile_with_quiz`, cold_start.py lines 130-136). -/
structure QuizEntry where
  quizId : Option String
  topic : String
  score : ℚ
  difficulty : String
  timestamp : String
deriving DecidableEq

/-- Embedding of a stored user profile (shape created by
`create_initial_profile`, cold_start.py lines 86-96).  The `recommendations`
field is omitted: it is regenerated on every update via
`_generate_recommendations` and no claim refers to it.  `domain_difficulties`
is a Python dict with unique keys, modelled as a function into `Option`;
`interests` is `background["interests"]`. -/
structure Profile where
  userId : String
  interests : List String
  relevantDomains : List String
  domainDifficulties : String → Option String
  profileConfidence : ℚ
  quizHistory : List QuizEntry

/-- Embedding of the `quiz_result` dictionary passed to
`update_profile_with_quiz`; fields read with `.get` defaults are `Option`s. -/
structure QuizResult where
  quizId : Option String
  topic : Option String
  score : Option ℚ
  difficulty : Option String

/-- Embedding of the state change performed by
`ColdStartSolver.update_profile_with_quiz` on an existing profile
(cold_start.py lines 103-160): append an entry to `quiz_history`; when the
quiz topic's domain is a key of `domain_difficulties`, raise that domain one
difficulty step if `score > 80` and the quiz difficulty equals the current
domain difficulty, lower it one step if `score < 40` under the same equality,
and otherwise leave it; finally set `profile_confidence` to
`min(0.95, profile_confidence + 0.05)`.  The `recommendations` refresh and
the save to disk are outside the model; `now` stands for
`datetime.now().isoformat()`. -/
def updateProfileWithQuiz (profile : Profile) (quizResult : QuizResult)
    (now : String) : Profile :=
  let topic := quizResult.topic.getD "general"
  let score := quizResult.score.getD 0
  let difficulty := quizResult.difficulty.getD "intermediate"
  let newHistory := profile.quizHistory ++
    [{ quizId := quizResult.quizId, topic := topic, score := score,
       difficulty := difficulty, timestamp := now }]
  let domain := mapTopicToDomain topic
  let newDomainDifficulties :=
    match profile.domainDifficulties domain with
    | none => profile.domainDifficulties
    | some currentDifficulty =>
      if 80 < score ∧ difficulty = currentDifficulty then
        fun d => if d = domain then some (increaseDifficulty currentDifficulty)
                 else profile.domainDifficulties d
      else if score < 40 ∧ difficulty = currentDifficulty then
        fun d => if d = domain then some (decreaseDifficulty currentDifficulty)
                 else profile.domainDifficulties d
      else profile.domainDifficulties
  { profile with
    quizHistory := newHistory,
    domainDifficulties := newDomainDifficulties,
    profileConfidence := min (95/100) (profile.profileConfidence + 5/100) }

/-- C6: for a stored profile and a quiz result whose topic maps to a domain
present in `domain_difficulties`: a score above 80 with the quiz difficulty
equal to the current domain difficulty raises that domain exactly one step
(saturating at advanced); a score below 40 under the same equality lowers it
exactly one step (saturating at beginner); in every other case the domain
difficulty is unchanged. -/
theorem update_profile_domain_difficulty_step (profile : Profile)
    (qr : QuizResult) (now : String) (dom cur : String)
    (hdom : mapTopicToDomain (qr.topic.getD "general") = dom)
    (hcur : profile.domainDifficulties dom = some cur)
    (hlev : cur = "beginner" ∨ cur = "intermediate" ∨ cur = "advanced") :
    (80 < qr.score.getD 0 ∧ qr.difficulty.getD "intermediate" = cur →
      (updateProfileWithQuiz profile qr now).domainDifficulties dom
        = some (increaseDifficulty cur) ∧
      difficultyToNumber (increaseDifficulty cur)
        = min 3 (difficultyToNumber cur + 1)) ∧
    (qr.score.getD 0 < 40 ∧ qr.difficulty.getD "intermediate" = cur →
      (updateProfileWithQuiz profile qr now).domainDifficulties dom
        = some (decreaseDifficulty cur) ∧
      difficultyToNumber (decreaseDifficulty cur)
        = max 1 (difficultyToNumber cur - 1)) ∧
    (¬(80 < qr.score.getD 0 ∧ qr.difficulty.getD "intermediate" = cur) →
     ¬(qr.score.getD 0 < 40 ∧ qr.difficulty.getD "intermediate" = cur) →
      (updateProfileWithQuiz profile qr now).domainDifficulties dom
        = profile.domainDifficulties dom) := by
  subst hdom
  refine ⟨?_, ?_, ?_⟩
  · intro hcond
    constructor
    · simp only [updateProfileWithQuiz, hcur, if_pos hcond]
      simp
    · rcases hlev with h | h | h <;> subst h <;> rfl
  · intro hcond
    have hnot : ¬(80 < qr.score.getD 0 ∧ qr.difficulty.getD "intermediate" = cur) := by
      intro h
      linarith [h.1, hcond.1]
    constructor
    · simp only [updateProfileWithQuiz, hcur, if_neg hnot, if_pos hcond]
      simp
    · rcases hlev with h | h | h <;> subst h <;> rfl
  · intro hnot1 hnot2
    simp only [updateProfileWithQuiz, hcur, if_neg hnot1, if_neg hnot2]

/-- Concrete profile used by witnesses below. -/
def sampleProfile : Profile :=
  { userId := "u1", interests := ["programming"],
    relevantDomains := ["technology"],
    domainDifficulties := fun d => if d = "technology" then some "intermediate" else none,
    profileConfidence := 6/10,
    quizHistory := [] }

/-- Concrete quiz result used by witnesses below. -/
def sampleQuizResult : QuizResult :=
  { quizId := some "q1", topic := some "programming",
    score := some 85, difficulty := some "intermediate" }

/-- C6 witness: the update rule instantiated on a concrete profile and quiz. -/
theorem update_profile_domain_difficulty_step_witness :
    (updateProfileWithQuiz sampleProfile sampleQuizResult "2024-01-01").domainDifficulties
      "technology" = some (increaseDifficulty "intermediate") ∧
    difficultyToNumber (increaseDifficulty "intermediate")
      = min 3 (difficultyToNumber "intermediate" + 1) :=
  (update_profile_domain_difficulty_step sampleProfile sampleQuizResult "2024-01-01"
      "technology" "intermediate" (by decide) (by decide)
      (Or.inr (Or.inl rfl))).1 ⟨by norm_num [sampleQuizResult], rfl⟩

/-- Embedding of the initial `profile_confidence` value set by
`ColdStartSolver.create_initial_profile` (cold_start.py line 94): `0.6`. -/
def initialProfileConfidence : ℚ := 6/10

/-- Folding a sequence of `update_profile_with_quiz` calls over a profile;
each element pairs the quiz result with the `datetime.now().isoformat()`
string observed by that call. -/
def foldQuizzes (profile : Profile) (results : List (QuizResult × String)) : Profile :=
  results.foldl (fun p qr => updateProfileWithQuiz p qr.1 qr.2) profile

/-- The confidence update of a single `update_profile_with_quiz` call
(cold_start.py line 152) reads back as the min-with-cap formula. -/
theorem update_profile_confidence_step (p : Profile) (qr : QuizResult) (now : String) :
    (updateProfileWithQuiz p qr now).profileConfidence
      = min (95/100) (p.profileConfidence + 5/100) := rfl

/-- Closed form of the confidence after a sequence of updates, for any
starting confidence below the cap. -/
theorem foldQuizzes_confidence (rs : List (QuizResult × String)) :
    ∀ p : Profile, p.profileConfidence ≤ 95/100 →
      (foldQuizzes p rs).profileConfidence
        = min (95/100) (p.profileConfidence + 5/100 * rs.length) := by
  induction rs with
  | nil =>
    intro p hp
    simp only [foldQuizzes, List.foldl_nil, List.length_nil]
    rw [min_eq_right]
    · push_cast
      ring
    · push_cast
      linarith
  | cons r rs ih =>
    intro p hp
    have hstep : (updateProfileWithQuiz p r.1 r.2).profileConfidence
        = min (95/100) (p.profileConfidence + 5/100) :=
      update_profile_confidence_step p r.1 r.2
    have hle : (updateProfileWithQuiz p r.1 r.2).profileConfidence ≤ 95/100 := by
      rw [hstep]
      exact min_le_left _ _
    have hfold : foldQuizzes p (r :: rs) = foldQuizzes (updateProfileWithQuiz p r.1 r.2) rs := rfl
    rw [hfold, ih _ hle, hstep]
    rcases le_or_lt (p.profileConfidence + 5/100) (95/100) with hcase | hcase
    · rw [min_eq_right hcase]
      congr 1
      simp only [List.length_cons]
      push_cast
      ring
    · rw [min_eq_left hcase.le]
      have h1 : (95:ℚ)/100 ≤ 95/100 + 5/100 * (rs.length : ℚ) := by
        have hnn := Nat.cast_nonneg (α := ℚ) rs.length
        linarith
      have h2 : (95:ℚ)/100 ≤ p.profileConfidence + 5/100 * ((r :: rs).length : ℚ) := by
        simp only [List.length_cons]
        push_cast
        have hnn := Nat.cast_nonneg (α := ℚ) rs.length
        linarith
      rw [min_eq_left h1, min_eq_left h2]

/-- C7: across every sequence of successive `update_profile_with_quiz` calls
on a profile that starts at the initial confidence `0.6`, the confidence
equals `min(0.95, 0.6 + 0.05 * number_of_quizzes)`, never exceeds `0.95`,
and one further call never decreases it and applies exactly the
`min(0.95, previous + 0.05)` rule. -/
theorem profile_confidence_monotone (p : Profile) (rs : List (QuizResult × String))
    (hinit : p.profileConfidence = initialProfileConfidence) :
    (foldQuizzes p rs).profileConfidence
      = min (95/100) (initialProfileConfidence + 5/100 * rs.length) ∧
    (foldQuizzes p rs).profileConfidence ≤ 95/100 ∧
    ∀ qr now,
      (foldQuizzes p rs).profileConfidence
        ≤ (updateProfileWithQuiz (foldQuizzes p rs) qr now).profileConfidence ∧
      (updateProfileWithQuiz (foldQuizzes p rs) qr now).profileConfidence
        = min (95/100) ((foldQuizzes p rs).profileConfidence + 5/100) := by
  have hstart : p.profileConfidence ≤ 95/100 := by
    rw [hinit]
    norm_num [initialProfileConfidence]
  have hform := foldQuizzes_confidence rs p hstart
  rw [hinit] at hform
  have hcap : (foldQuizzes p rs).profileConfidence ≤ 95/100 := by
    rw [hform]
    exact min_le_left _ _
  refine ⟨hform, hcap, ?_⟩
  intro qr now
  constructor
  · rw [update_profile_confidence_step]
    apply le_min hcap
    linarith
  · exact update_profile_confidence_step _ qr now

/-- C7 witness: the confidence law instantiated on a concrete profile and a
two-quiz sequence. -/
theorem profile_confidence_monotone_witness :
    (foldQuizzes sampleProfile
        [(sampleQuizResult, "t1"), (sampleQuizResult, "t2")]).profileConfidence
      = min (95/100)
          (initialProfileConfidence + 5/100 *
            ([(sampleQuizResult, "t1"), (sampleQuizResult, "t2")].length : ℚ)) ∧
    (foldQuizzes sampleProfile
        [(sampleQuizResult, "t1"), (sampleQuizResult, "t2")]).profileConfidence
      ≤ 95/100 ∧
    ∀ qr now,
      (foldQuizzes sampleProfile
          [(sampleQuizResult, "t1"), (sampleQuizResult, "t2")]).profileConfidence
        ≤ (updateProfileWithQuiz
            (foldQuizzes sampleProfile [(sampleQuizResult, "t1"), (sampleQuizResult, "t2")])
            qr now).profileConfidence ∧
      (updateProfileWithQuiz
          (foldQuizzes sampleProfile [(sampleQuizResult, "t1"), (sampleQuizResult, "t2")])
          qr now).profileConfidence
        = min (95/100)
            ((foldQuizzes sampleProfile
                [(sampleQuizResult, "t1"), (sampleQuizResult, "t2")]).profileConfidence
              + 5/100) :=
  profile_confidence_monotone sampleProfile
    [(sampleQuizResult, "t1"), (sampleQuizResult, "t2")] rfl

/-- Sorted list of the knowledge-domain names, embedding the Python call
`sorted(self.knowledge_domains.keys())` used in `get_similar_users`
(cold_start.py lines 188, 194, 201, 206). -/
def sortedDomains : List String :=
  (knowledgeDomains.map Prod.fst).mergeSort (fun a b => decide (a ≤ b))

/-- Feature vector `get_similar_users` builds for one profile (cold_start.py
lines 184-196 and 199-207): per sorted domain the difficulty ordinal (default
"intermediate"), then per sorted domain a binary interest indicator. -/
def similarityFeatures (p : Profile) : List ℚ :=
  sortedDomains.map
      (fun d => (difficultyToNumber ((p.domainDifficulties d).getD "intermediate") : ℚ))
    ++ sortedDomains.map (fun d => if p.interests.contains d then (1:ℚ) else 0)

/-- Embedding of `ColdStartSolver.get_similar_users` (cold_start.py lines
162-217).  The profile store is the `self.user_profiles` dictionary,
modelled as an association list in insertion order; loading the target
profile from disk is modelled as a lookup in the same store.  The cosine
similarity (`_calculate_cosine_similarity`, which takes a real square root)
is abstracted as the `sim` argument: the theorem below holds for every
similarity function, in particular the cosine one.  Python's stable
`sorted(..., reverse=True)` is modelled by a stable merge sort on the
descending comparison. -/
def getSimilarUsers (sim : List ℚ → List ℚ → ℚ)
    (store : List (String × Profile)) (userId : String) (n : ℕ) : List String :=
  match (store.find? (fun q => q.1 = userId)).map Prod.snd with
  | none => []
  | some profile =>
    if store.length < 5 then []
    else
      let userFeatures := (store.filter (fun q => q.1 ≠ userId)).map
        (fun q => (q.1, similarityFeatures q.2))
      let targetFeatures := similarityFeatures profile
      let similarities := userFeatures.map (fun q => (q.1, sim targetFeatures q.2))
      let ranked := similarities.mergeSort (fun a b => decide (b.2 ≤ a.2))
      (ranked.take n).map Prod.fst

/-- C10: the list returned by `get_similar_users` never contains the queried
user id itself, for every similarity function, profile store, user id and
requested count: the target user is excluded from the candidate set before
ranking. -/
theorem get_similar_users_excludes_self (sim : List ℚ → List ℚ → ℚ)
    (store : List (String × Profile)) (userId : String) (n : ℕ) :
    userId ∉ getSimilarUsers sim store userId n := by
  intro hmem
  unfold getSimilarUsers at hmem
  split at hmem
  · simp at hmem
  · split at hmem
    · simp at hmem
    · rcases List.mem_map.mp hmem with ⟨pair, hpair, hfst⟩
      have hranked := List.mem_of_mem_take hpair
      have hsims := List.mem_mergeSort.mp hranked
      rcases List.mem_map.mp hsims with ⟨q, hq, hqeq⟩
      rcases List.mem_map.mp hq with ⟨entry, hentry, heq⟩
      have hne : entry.1 ≠ userId := by
        have := List.of_mem_filter hentry
        simpa using this
      apply hne
      have h1 : q.1 = entry.1 := by rw [← heq]
      rw [← hqeq] at hfst
      rw [← h1]
      simpa using hfst

/-! ### ProficiencyPredictor (src/backend/proficiency_model.py) -/

/-- Shapes the `timestamp` value of a performance dictionary can take when it
reaches `_extract_features` (proficiency_model.py lines 115-124):
* `dt d` — a `datetime` instance whose subtraction from `datetime.now()`
  yields `d` days;
* `strOk d` — a string `datetime.fromisoformat` parses, `d` days ago;
* `strBad` — a value that makes the `try` block raise (e.g. an unparseable
  string);
* `otherType` — a value that is neither a `datetime` nor a string (neither
  `isinstance` branch fires and nothing raises). -/
inductive TsVal where
  | dt (daysAgo : ℤ)
  | strOk (daysAgo : ℤ)
  | strBad
  | otherType
deriving DecidableEq

/-- Embedding of the performance dictionary consumed by
`ProficiencyPredictor._extract_features`; fields read with `.get` defaults
are `Option`s, and an absent `timestamp` key is `none`. -/
structure PerfData where
  correctRatio : Option ℚ
  avgResponseTime : Option ℚ
  confidenceScore : Option ℚ
  difficulty : Option String
  timestamp : Option TsVal
  questionCount : Option ℚ
  streak : Option ℚ
deriving DecidableEq

/-- Embedding of the `days_since` computation inside
`ProficiencyPredictor._extract_features` (proficiency_model.py lines
115-124): `days_since` starts at `0`; only when a `timestamp` key is present
does the `try` block run, setting it to the parsed day difference for a
`datetime` or a parseable string, to `30` when the block raises, and leaving
it at `0` when the value is neither a `datetime` nor a string.  The recency
feature on line 126 is `exp(-0.05 * days_since)`. -/
def daysSince (pd : PerfData) : ℤ :=
  match pd.timestamp with
  | none => 0
  | some (TsVal.dt d) => d
  | some (TsVal.strOk d) => d
  | some TsVal.strBad => 30
  | some TsVal.otherType => 0

/-- Performance dictionary with no `timestamp` key (every optional field
absent). -/
def perfDataNoTimestamp : PerfData :=
  { correctRatio := none, avgResponseTime := none, confidenceScore := none,
    difficulty := none, timestamp := none, questionCount := none, streak := none }

/-- Performance dictionary whose `timestamp` value makes the parsing block
raise. -/
def perfDataBadTimestamp : PerfData :=
  { correctRatio := none, avgResponseTime := none, confidenceScore := none,
    difficulty := none, timestamp := some TsVal.strBad,
    questionCount := none, streak := none }

/-- C3 counterexample: when the timestamp is missing from the performance
data, `_extract_features` leaves `days_since = 0`, so the recency feature is
`exp(-0.05 * 0) = 1` and not the claimed `exp(-0.05 * 30) = exp(-1.5)`. -/
theorem recency_missing_timestamp_counterexample :
    daysSince perfDataNoTimestamp = 0 ∧
    Real.exp (-(5/100 : ℝ) * ((daysSince perfDataNoTimestamp : ℤ) : ℝ)) = 1 ∧
    Real.exp (-(5/100 : ℝ) * (30 : ℝ)) ≠ 1 := by
  refine ⟨rfl, ?_, ?_⟩
  · have h0 : ((daysSince perfDataNoTimestamp : ℤ) : ℝ) = 0 := by norm_num [daysSince, perfDataNoTimestamp]
    rw [h0]
    rw [mul_zero, Real.exp_zero]
  · have hlt : Real.exp (-(5/100 : ℝ) * 30) < 1 := by
      calc Real.exp (-(5/100 : ℝ) * 30) < Real.exp 0 := Real.exp_lt_exp.mpr (by norm_num)
        _ = 1 := Real.exp_zero
    exact hlt.ne

/-- C3 (amended): the recency feature equals `exp(-0.05 * days_since)`, where
`days_since` is `30` only when a `timestamp` value is present and the parsing
block raises; a missing `timestamp` key leaves `days_since = 0` (recency
`exp(0) = 1`), a parsed `datetime` or ISO string gives its day difference,
and a value of any other type also leaves `0`. -/
theorem days_since_cases (pd : PerfData) :
    (pd.timestamp = none → daysSince pd = 0 ∧
      Real.exp (-(5/100 : ℝ) * ((daysSince pd : ℤ) : ℝ)) = 1) ∧
    (∀ d, pd.timestamp = some (TsVal.dt d) → daysSince pd = d) ∧
    (∀ d, pd.timestamp = some (TsVal.strOk d) → daysSince pd = d) ∧
    (pd.timestamp = some TsVal.strBad → daysSince pd = 30 ∧
      Real.exp (-(5/100 : ℝ) * ((daysSince pd : ℤ) : ℝ)) = Real.exp (-(3/2 : ℝ))) ∧
    (pd.timestamp = some TsVal.otherType → daysSince pd = 0) := by
  refine ⟨?_, ?_, ?_, ?_, ?_⟩
  · intro h
    have hz : daysSince pd = 0 := by simp [daysSince, h]
    refine ⟨hz, ?_⟩
    rw [hz]
    norm_num
  · intro d h
    simp [daysSince, h]
  · intro d h
    simp [daysSince, h]
  · intro h
    have hz : daysSince pd = 30 := by simp [daysSince, h]
    refine ⟨hz, ?_⟩
    rw [hz]
    norm_num
  · intro h
    simp [daysSince, h]

/-- C3 witness: the amended behaviour at the two distinguished concrete
inputs (raising timestamp gives 30, missing timestamp gives 0). -/
theorem days_since_cases_witness :
    (daysSince perfDataBadTimestamp = 30 ∧
      Real.exp (-(5/100 : ℝ) * ((daysSince perfDataBadTimestamp : ℤ) : ℝ))
        = Real.exp (-(3/2 : ℝ))) ∧
    (daysSince perfDataNoTimestamp = 0 ∧
      Real.exp (-(5/100 : ℝ) * ((daysSince perfDataNoTimestamp : ℤ) : ℝ)) = 1) :=
  ⟨(days_since_cases perfDataBadTimestamp).2.2.2.1 rfl,
   (days_since_cases perfDataNoTimestamp).1 rfl⟩

/-- Model of a loaded PyTorch proficiency model; its behaviour enters the
embedding only through the oracle functions of `TorchEnv`. -/
structure TorchModel where
  modelId : ℕ
deriving DecidableEq

/-- Oracles standing for the PyTorch-dependent operations that
`ProficiencyPredictor.predict_proficiency` performs inside its `try` block
(proficiency_model.py lines 240-266): feature extraction plus tensor
construction may raise; `_load_model` returns an optional model and catches
its own errors (lines 272-298); `train_model` returns a success flag and
catches its own errors (lines 146-221); a second load runs after training;
inference through the network may raise. -/
structure TorchEnv where
  extractFeatures : PerfData → Except String (List ℚ)
  loadModel : String → String → Option TorchModel
  trainModel : String → String → List PerfData → Bool
  loadModelAfterTrain : String → String → Option TorchModel
  defaultModel : TorchModel
  inferModel : TorchModel → List ℚ → Except String ℚ

/-- Embedding of the body of the `try` block of
`ProficiencyPredictor.predict_proficiency` (proficiency_model.py lines
240-266): extract features, try the cached/persisted model, lazily train
when there are at least 3 history records, fall back to the shared default
model, then run inference. -/
def predictProficiencyBody (env : TorchEnv) (userId topic : String)
    (currentPerformance : PerfData)
    (historicalPerformance : Option (List PerfData)) : Except String ℚ := do
  let features ← env.extractFeatures currentPerformance
  let loaded := env.loadModel userId topic
  let model :=
    match loaded with
    | some m => some m
    | none =>
      match historicalPerformance with
      | some history =>
        if 3 ≤ history.length then
          if env.trainModel userId topic history then
            env.loadModelAfterTrain userId topic
          else none
        else none
      | none => none
  let finalModel := model.getD env.defaultModel
  env.inferModel finalModel features

/-- Embedding of `ProficiencyPredictor.predict_proficiency` (lines 223-270):
the whole body runs inside `try`, and the `except Exception` handler returns
the neutral value `0.5`. -/
def predictProficiency (env : TorchEnv) (userId topic : String)
    (currentPerformance : PerfData)
    (historicalPerformance : Option (List PerfData)) : ℚ :=
  match predictProficiencyBody env userId topic currentPerformance historicalPerformance with
  | Except.ok proficiency => proficiency
  | Except.error _ => 1/2

/-- C8: for every oracle behaviour and every input, `predict_proficiency`
never propagates an exception: whenever the body raises it returns the
neutral value `0.5`, and whenever the body succeeds it returns the body's
value. -/
theorem predict_proficiency_never_throws (env : TorchEnv) (userId topic : String)
    (cur : PerfData) (hist : Option (List PerfData)) :
    (∀ e, predictProficiencyBody env userId topic cur hist = Except.error e →
      predictProficiency env userId topic cur hist = 1/2) ∧
    (∀ v, predictProficiencyBody env userId topic cur hist = Except.ok v →
      predictProficiency env userId topic cur hist = v) := by
  constructor
  · intro e h
    simp [predictProficiency, h]
  · intro v h
    simp [predictProficiency, h]

/-- Oracle environment in which every PyTorch operation fails. -/
def failingTorchEnv : TorchEnv :=
  { extractFeatures := fun _ => Except.error "RuntimeError in torch.tensor",
    loadModel := fun _ _ => none,
    trainModel := fun _ _ _ => false,
    loadModelAfterTrain := fun _ _ => none,
    defaultModel := ⟨0⟩,
    inferModel := fun _ _ => Except.error "RuntimeError in forward" }

/-- C8 witness: with failing oracles and concrete arguments the prediction is
the neutral `0.5`. -/
theorem predict_proficiency_never_throws_witness :
    predictProficiency failingTorchEnv "u1" "algebra" perfDataNoTimestamp none = 1/2 :=
  (predict_proficiency_never_throws failingTorchEnv "u1" "algebra"
      perfDataNoTimestamp none).1 "RuntimeError in torch.tensor" rfl

/-! ### RecommendationSystem (src/backend/recommendation_system.py) -/

/-- Embedding of a content/document dictionary passed to the recommenders;
fields read with `.get` defaults are `Option`s. -/
structure Doc where
  docId : String
  tags : List String
  topic : Option String
  difficulty : Option String
deriving DecidableEq

/-- Dynamic value occupying the `n_recommendations` parameter of
`recommend_content_for_new_user` (cold_start.py line 222).  The signature
declares an `int`, but the limited-history branch of
`RecommendationSystem.get_recommendations` (recommendation_system.py lines
79-83) passes the `quiz_history` list positionally into this slot. -/
inductive NRecArg where
  | int (n : ℕ)
  | pyList (history : List QuizEntry)
deriving DecidableEq

/-- Relevance score of one domain-matching document, from the first loop of
`ColdStartSolver.recommend_content_for_new_user` (cold_start.py lines
250-261): base `1.0`, multiplied by `1.2` on an exact difficulty match and by
`0.8` when the document is harder than the user's domain difficulty. -/
def docRelevance (profile : Profile) (doc : Doc) : ℚ :=
  let docDifficulty := doc.difficulty.getD "intermediate"
  let domainDifficulty := (profile.domainDifficulties
      (mapTopicToDomain (doc.topic.getD "general"))).getD "intermediate"
  if docDifficulty = domainDifficulty then 12/10
  else if difficultyToNumber domainDifficulty < difficultyToNumber docDifficulty then 8/10
  else 1

/-- The `(doc, relevance)` list built by the first loop of
`recommend_content_for_new_user` (cold_start.py lines 244-263): only
documents whose topic maps to one of the profile's relevant domains are
kept. -/
def relevantDocsFor (profile : Profile) (docs : List Doc) : List (Doc × ℚ) :=
  (docs.filter (fun doc =>
      profile.relevantDomains.contains (mapTopicToDomain (doc.topic.getD "general")))).map
    (fun doc => (doc, docRelevance profile doc))

/-- The padding loop of `recommend_content_for_new_user` (cold_start.py lines
267-271): append each remaining document with relevance `0.5` unless it is
already among the accumulated document components (the membership test is
re-evaluated against the growing list, as in the Python loop). -/
def padRelevantDocs (acc : List (Doc × ℚ)) : List Doc → List (Doc × ℚ)
  | [] => acc
  | doc :: rest =>
    if (acc.map Prod.fst).contains doc then padRelevantDocs acc rest
    else padRelevantDocs (acc ++ [(doc, (1/2 : ℚ))]) rest

/-- Embedding of `ColdStartSolver.recommend_content_for_new_user`
(cold_start.py lines 219-275), with the `n_recommendations` parameter kept
dynamically typed as in Python.  When a list occupies that slot, the
comparison `len(relevant_docs) < n_recommendations` on line 266 compares an
`int` with a `list` and raises `TypeError`, modelled as `Except.error`. -/
def recommendContentForNewUser (store : List (String × Profile)) (userId : String)
    (availableDocuments : List Doc) (nRecommendations : NRecArg) :
    Except String (List Doc) :=
  match (store.find? (fun q => q.1 = userId)).map Prod.snd with
  | none => Except.ok []
  | some profile =>
    let relevantDocs := relevantDocsFor profile availableDocuments
    match nRecommendations with
    | NRecArg.pyList _ =>
      Except.error "TypeError: unsupported comparison between int and list"
    | NRecArg.int n =>
      let padded :=
        if relevantDocs.length < n then padRelevantDocs relevantDocs availableDocuments
        else relevantDocs
      let ranked := padded.mergeSort (fun a b => decide (b.2 ≤ a.2))
      Except.ok ((ranked.take n).map Prod.fst)

/-- Embedding of `RecommendationSystem.get_recommendations`
(recommendation_system.py lines 50-150).  The four-strategy blender path
(content-based, collaborative, performance-based, recency-based plus the
diversity pass, lines 85-150) is abstracted as the `blender` argument: the
theorem below holds for every blender, because the branch under scrutiny
returns before reaching it.  Loading the user profile
(`self.cold_start._load_user_profile`) is a lookup in the same store used by
the cold-start recommender. -/
def getRecommendations (blender : Profile → Except String (List Doc))
    (store : List (String × Profile)) (userId : String)
    (availableContent : List Doc) (nRecommendations : ℕ) :
    Except String (List Doc) :=
  match (store.find? (fun q => q.1 = userId)).map Prod.snd with
  | none =>
    (recommendContentForNewUser store userId availableContent (NRecArg.int 5)).map
      (fun docs => docs.take nRecommendations)
  | some profile =>
    if profile.quizHistory.length < 3 then
      (recommendContentForNewUser store userId availableContent
        (NRecArg.pyList profile.quizHistory)).map (fun docs => docs.take nRecommendations)
    else
      blender profile

/-- C2: for every user whose stored profile exists and has fewer than 3
quiz-history entries, `get_recommendations` takes the cold-start branch and —
contrary to the claim that it returns at most `n_recommendations` items —
raises `TypeError`, because the branch passes the `quiz_history` list
positionally into the `n_recommendations : int` slot of
`recommend_content_for_new_user`, whose `len(relevant_docs) <
n_recommendations` comparison then compares an `int` with a `list`.  The
result is independent of the blender, which is never invoked. -/
theorem limited_history_path_raises (blender : Profile → Except String (List Doc))
    (store : List (String × Profile)) (userId : String) (profile : Profile)
    (docs : List Doc) (n : ℕ)
    (hload : (store.find? (fun q => q.1 = userId)).map Prod.snd = some profile)
    (hhist : profile.quizHistory.length < 3) :
    getRecommendations blender store userId docs n =
      Except.error "TypeError: unsupported comparison between int and list" := by
  unfold getRecommendations
  rw [hload]
  simp only [if_pos hhist]
  unfold recommendContentForNewUser
  rw [hload]
  rfl

/-- C2 witness: a concrete store with a profile holding an empty quiz
history; the limited-history branch of `get_recommendations` evaluates to
the `TypeError`, whatever the blender would have returned. -/
theorem limited_history_path_raises_witness :
    getRecommendations (fun _ => Except.ok []) [("u1", sampleProfile)] "u1" [] 5 =
      Except.error "TypeError: unsupported comparison between int and list" :=
  limited_history_path_raises (fun _ => Except.ok []) [("u1", sampleProfile)]
    "u1" sampleProfile [] 5 rfl (by norm_num [sampleProfile])

end Quizorbital
